import Mathlib

/-!
Verification of the frame-sequence editing model and pipeline engine of
a small video-editing program (src/main.py).

Frames are raster buffers; sequences are Lean lists. Python integers are
Int; Python list slicing (which clamps, and wraps negative indices) is
embedded explicitly. Operations that can fail (the assertion in cut, a
source that cannot be opened) return Option or carry an error flag.
-/

namespace VideoEdit

/-- A decoded raster frame: either a single-channel (2-D, grayscale)
buffer or a 3-channel (color) buffer, as rows of pixels. -/
inductive Frame where
  | gray (data : List (List Nat))
  | color (data : List (List (Nat × Nat × Nat)))
deriving DecidableEq

/-! ## Python slice semantics

`l[i:]` and `l[:j]` for an arbitrary integer index: a negative index
counts from the end (`n + i`), and the result is clamped to the list,
never an error. `Int.toNat` of a negative number is `0`, which is
exactly the lower clamp. -/

/-- Python `l[:j]` for an integer `j`. -/
def pySliceTo (l : List α) (j : Int) : List α :=
  if 0 ≤ j then l.take j.toNat
  else l.take ((l.length : Int) + j).toNat

/-- Python `l[i:]` for an integer `i`. -/
def pySliceFrom (l : List α) (i : Int) : List α :=
  if 0 ≤ i then l.drop i.toNat
  else l.drop ((l.length : Int) + i).toNat

/-! ## Frame sequence edit operations (src/main.py) -/

/-- `cut(frames, start, count)` body (src/main.py lines 46-48):
`end_idx = len(frames) - start`, `start_idx = max(0, end_idx - count)`,
result `frames[:start_idx] + frames[end_idx:]` with Python slice
semantics. -/
def cut (frames : List α) (start count : Int) : List α :=
  let end_idx : Int := (frames.length : Int) - start
  let start_idx : Int := max 0 (end_idx - count)
  pySliceTo frames start_idx ++ pySliceFrom frames end_idx

/-- `cut` including its assertion (src/main.py line 45):
`assert start >= 0 and count >= 0` raises for negative arguments, which
we embed as `none`; otherwise the slicing body runs and returns. -/
def cutChecked (frames : List α) (start count : Int) : Option (List α) :=
  if 0 ≤ start ∧ 0 ≤ count then some (cut frames start count) else none

/-- The length the SPEC's testable property (§8) predicts for
`cut(s, start, count)`:
`len(s) - (min(len(s), max(0, len(s)-start)) - max(0, max(0, len(s)-start) - count))`.
Written from the spec's words, to be compared with the code's `cut`. -/
def cutSpecLen (n start count : Int) : Int :=
  n - (min n (max 0 (n - start)) - max 0 (max 0 (n - start) - count))

/-- Modelled from the spec: the external per-frame grayscale conversion
(`cv2.cvtColor(f, COLOR_BGR2GRAY)`), a narrow-interface collaborator
mapping a color frame to a single-channel frame; pixel values are an
average of the three channels. -/
def bgr2grayPixel (p : Nat × Nat × Nat) : Nat :=
  (p.1 + p.2.1 + p.2.2) / 3

/-- Per-frame conversion used by `to_grayscale`. -/
def cvtBGR2GRAY : Frame → Frame
  | Frame.color d => Frame.gray (d.map (fun row => row.map bgr2grayPixel))
  | Frame.gray d => Frame.gray d

/-- `to_grayscale(frames)` (src/main.py line 54-55): maps every frame
through the grayscale conversion, building a new list. -/
def to_grayscale (frames : List Frame) : List Frame :=
  frames.map cvtBGR2GRAY

/-- The per-frame step of `ensure_3channel` (src/main.py line 60):
`cv2.cvtColor(f, COLOR_GRAY2BGR) if len(f.shape) == 2 else f` — a 2-D
(grayscale) frame is expanded by replicating its channel, any other
frame passes through unchanged. -/
def ensure3Frame : Frame → Frame
  | Frame.gray d => Frame.color (d.map (fun row => row.map (fun v => (v, v, v))))
  | f => f

/-- `ensure_3channel(frames)` (src/main.py lines 58-60). -/
def ensure_3channel (frames : List Frame) : List Frame :=
  frames.map ensure3Frame

/-- `blur_frames(frames, ksize)` (src/main.py lines 63-64): maps every
frame through the external Gaussian blur, building a new list. The blur
itself (`cv2.GaussianBlur`) is an external collaborator, taken as a
parameter `gauss`. -/
def blur_frames (gauss : Nat × Nat → Frame → Frame)
    (frames : List Frame) (ksize : Nat × Nat) : List Frame :=
  frames.map (gauss ksize)

/-- Modelled from the spec: the external `cv2.putText` call, which the
spec (§4.1) describes as drawing text into the frame buffer in place.
We model the draw as writing the color into the pixel at `pos` (x, y)
when it is in bounds (`List.set` is the identity out of bounds); a
grayscale buffer receives the first channel. -/
def putText (_text : String) (pos : Nat × Nat) (color : Nat × Nat × Nat) :
    Frame → Frame
  | Frame.gray d =>
      match d.get? pos.2 with
      | none => Frame.gray d
      | some row => Frame.gray (d.set pos.2 (row.set pos.1 color.1))
  | Frame.color d =>
      match d.get? pos.2 with
      | none => Frame.color d
      | some row => Frame.color (d.set pos.2 (row.set pos.1 color))

/-- `overlay_text(frames, text, position, color)` (src/main.py lines
67-71): the loop `for f in frames: cv2.putText(f, ...)` draws into each
frame of the INPUT list in place, and `return frames` returns that same
list. The value returned is therefore the input frames each mutated by
`putText`. -/
def overlay_text (frames : List Frame) (text : String)
    (position : Nat × Nat) (color : Nat × Nat × Nat) : List Frame :=
  frames.map (putText text position color)

/-- State of the frames of the INPUT list after `overlay_text` returns:
the in-place `cv2.putText` calls have mutated every one of them. -/
def overlay_text_inputAfter (frames : List Frame) (text : String)
    (position : Nat × Nat) (color : Nat × Nat × Nat) : List Frame :=
  frames.map (putText text position color)

/-- `append_video(frames, video_path)` (src/main.py lines 8-25). The
external decoder (`cv2.VideoCapture` plus the read loop) is a parameter
`decodeVideo`; `none` is a source that cannot be opened. On failure the
function reports the error (second component `true`) and returns the
input list; on success it returns `frames + new_frames`. -/
def append_video (decodeVideo : String → Option (List Frame))
    (frames : List Frame) (video_path : String) : List Frame × Bool :=
  match decodeVideo ("input/" ++ video_path) with
  | none => (frames, true)
  | some new_frames => (frames ++ new_frames, false)

/-- `append_image(frames, image_path)` (src/main.py lines 28-36). The
external decoder (`cv2.imread`) is a parameter `decodeImage`; `none` is
`imread` returning None. On failure the function reports the error and
returns the input list; on success it returns `frames + [img]`. -/
def append_image (decodeImage : String → Option Frame)
    (frames : List Frame) (image_path : String) : List Frame × Bool :=
  match decodeImage ("input/" ++ image_path) with
  | none => (frames, true)
  | some img => (frames ++ [img], false)

/-! ## Catalog of edit operations, with the state of the input tracked

`runOp` returns the pair (sequence returned, state of the input
sequence's frames after the call). Every operation except
`overlayText` builds its result without writing into the input frames
(`cvtColor`/`GaussianBlur` return fresh buffers, slicing and `+` build
fresh lists), so the input state is the input; `overlay_text` draws
into the input frames and returns that same, now mutated, list. -/

/-- A declared pipeline step's operation (spec §6 catalog). -/
inductive EditOp where
  | appendVideo (path : String)
  | appendImage (path : String)
  | cutOp (start count : Int)
  | grayscale
  | toMultiChannel
  | blur (ksize : Nat × Nat)
  | overlayText (text : String) (pos : Nat × Nat) (color : Nat × Nat × Nat)
deriving DecidableEq

/-- Run one catalog operation: (returned sequence, input sequence state
after the call). -/
def runOp (decodeVideo : String → Option (List Frame))
    (decodeImage : String → Option Frame)
    (gauss : Nat × Nat → Frame → Frame)
    (op : EditOp) (frames : List Frame) : List Frame × List Frame :=
  match op with
  | EditOp.appendVideo p => ((append_video decodeVideo frames p).1, frames)
  | EditOp.appendImage p => ((append_image decodeImage frames p).1, frames)
  | EditOp.cutOp s c => (cut frames s c, frames)
  | EditOp.grayscale => (to_grayscale frames, frames)
  | EditOp.toMultiChannel => (ensure_3channel frames, frames)
  | EditOp.blur k => (blur_frames gauss frames k, frames)
  | EditOp.overlayText t p c =>
      (overlay_text frames t p c, overlay_text_inputAfter frames t p c)

/-! ## Pipeline engine -/

/-- `apply_pipeline(frames, pipeline)` (src/main.py lines 78-85): folds
the steps over the sequence in declared order, each step's result
becoming the next step's input. A step is embedded as the function
`frames ↦ func(frames, *args)` the code builds from the tuple. -/
def apply_pipeline (frames : List α) : List (List α → List α) → List α
  | [] => frames
  | step :: rest => apply_pipeline (step frames) rest

end VideoEdit

namespace VideoEdit

/-! ## Claims -/

/-- C9: `cut(s, 0, 0)` is the identity: it returns a sequence equal to
`s` by value. -/
theorem cut_zero_zero_identity (s : List α) : cut s 0 0 = s := by
  simp [cut, pySliceTo, pySliceFrom, Int.natCast_nonneg]

/-- C3: for non-negative `start` and `count`, `cut` never raises: the
checked operation returns a result for every sequence and every
magnitude of the arguments. -/
theorem cut_never_raises (s : List α) (start count : Int)
    (hs : 0 ≤ start) (hc : 0 ≤ count) :
    cutChecked s start count = some (cut s start count) := by
  simp [cutChecked, hs, hc]

/-- Witness for C3 at a concrete input. -/
theorem cut_never_raises_witness :
    cutChecked ([0, 1] : List Nat) 7 3 = some (cut [0, 1] 7 3) :=
  cut_never_raises [0, 1] 7 3 (by decide) (by decide)

/-- C4: a negative `start` or `count` violates the assertion: `cut`
fails (no result sequence is produced, nothing is silently clamped). -/
theorem cut_negative_fails (s : List α) (start count : Int)
    (h : start < 0 ∨ count < 0) :
    cutChecked s start count = none := by
  rcases h with h | h <;> simp [cutChecked] <;> omega

/-- Witness for C4 at a concrete input. -/
theorem cut_negative_fails_witness :
    cutChecked ([0, 1] : List Nat) (-1) 0 = none :=
  cut_negative_fails [0, 1] (-1) 0 (Or.inl (by decide))

/-- C5: the pipeline engine applies the steps in declared order, each
step's result feeding the next: the empty pipeline returns the initial
sequence, a step list `f :: rest` applies `f` first, and for steps
`[A, B]` the result is `B(A(initial))`. -/
theorem apply_pipeline_in_order (init : List α) (A B f : List α → List α)
    (rest : List (List α → List α)) :
    apply_pipeline init [] = init ∧
    apply_pipeline init (f :: rest) = apply_pipeline (f init) rest ∧
    apply_pipeline init [A, B] = B (A init) :=
  ⟨rfl, rfl, rfl⟩

/-- C1: the code's `cut` does NOT satisfy the spec's clamped-length
formula at every magnitude of `start`: on a 2-frame sequence with
`start = 3, count = 0` the code returns 1 frame (the negative slice
index wraps to a tail slice, removing a frame although `count = 0`,
against the function's own docstring and log line), while the formula
predicts 2 frames (nothing removed). -/
theorem cut_specLen_mismatch :
    ((cut ([0, 1] : List Nat) 3 0).length : Int) = 1 ∧ cutSpecLen 2 3 0 = 2 := by
  constructor <;> decide

set_option maxRecDepth 20000 in
/-- C2 counterexample: on 500 frames tagged by index, `cut(300, 50)`
does not leave the index set `{0..149} ∪ {450..499}` claimed by the
scenario. -/
theorem cut_scenario_cex :
    cut (List.range 500) 300 50 ≠ List.range 150 ++ List.range' 450 50 := by
  decide

set_option maxRecDepth 20000 in
/-- C2 amended: `cut(300, 50)` on 500 frames removes the window
`[150:200)`, leaving 450 frames whose surviving index set is
`{0..149} ∪ {200..499}`. -/
theorem cut_scenario_amended :
    cut (List.range 500) 300 50 = List.range 150 ++ List.range' 200 300 ∧
    (cut (List.range 500) 300 50).length = 450 := by
  constructor <;> decide

/-- C7: `toMultiChannel` (ensure_3channel) is idempotent, because on a
frame that is already 3-channel it is the identity. -/
theorem to_multichannel_idempotent (s : List Frame) :
    ensure_3channel (ensure_3channel s) = ensure_3channel s := by
  induction s with
  | nil => rfl
  | cons f t ih =>
      simp only [ensure_3channel, List.map_cons] at *
      refine congrArg₂ List.cons ?_ ih
      cases f <;> rfl

/-- C10: when `len(s) < start`, the computed end index is negative and
Python slicing selects a tail slice instead of clamping: the result is
`s` with its first `max(0, 2*len(s) - start)` frames dropped,
independent of `count`; for `len(s) < start ≤ 2*len(s)` that is exactly
the last `start - len(s)` frames, and for `start > 2*len(s)` it is the
whole of `s`. -/
theorem cut_start_beyond_length (s : List α) (start count : Int)
    (hc : 0 ≤ count) (hs : (s.length : Int) < start) :
    cut s start count = s.drop (2 * (s.length : Int) - start).toNat ∧
    (start ≤ 2 * (s.length : Int) →
      (cut s start count).length = (start - (s.length : Int)).toNat) ∧
    (2 * (s.length : Int) < start → cut s start count = s) := by
  have hend : (s.length : Int) - start < 0 := by omega
  have hmax : max 0 ((s.length : Int) - start - count) = 0 := by omega
  have hmain : cut s start count = s.drop (2 * (s.length : Int) - start).toNat := by
    simp only [cut, hmax, pySliceTo, pySliceFrom, le_refl, if_pos,
      Int.toNat_zero, List.take_zero, List.nil_append]
    rw [if_neg (by omega)]
    congr 1
    omega
  refine ⟨hmain, ?_, ?_⟩
  · intro hle
    rw [hmain, List.length_drop]
    omega
  · intro hgt
    rw [hmain]
    have : (2 * (s.length : Int) - start).toNat = 0 := by omega
    rw [this, List.drop_zero]

/-- Witness for C10 at a concrete input: a 3-frame sequence with
`start = 4` keeps exactly the last frame. -/
theorem cut_start_beyond_length_witness :
    cut ([10, 11, 12] : List Nat) 4 2 = List.drop (2 * (3 : Int) - 4).toNat [10, 11, 12] ∧
    ((4 : Int) ≤ 2 * 3 →
      (cut ([10, 11, 12] : List Nat) 4 2).length = ((4 : Int) - 3).toNat) ∧
    ((2 * 3 : Int) < 4 → cut ([10, 11, 12] : List Nat) 4 2 = [10, 11, 12]) :=
  cut_start_beyond_length [10, 11, 12] 4 2 (by decide) (by decide)

/-- C6 counterexample: `overlayText` is not pure: after the call the
input sequence's frames have been drawn into. With a 1×1 grayscale
frame of value 0, drawing at position (0,0) with color (255, 200, 200)
leaves the input holding a frame of value 255. -/
theorem overlay_text_impure :
    overlay_text_inputAfter [Frame.gray [[0]]] "Cats" (0, 0) (255, 200, 200) ≠
      [Frame.gray [[0]]] := by
  decide

/-- C6 amended: every edit operation except `overlayText` leaves the
input sequence and its frames unchanged (its result is built in fresh
buffers and lists); `overlayText` instead draws into the input frames
in place and returns that same mutated sequence. -/
theorem edit_ops_pure_except_overlay
    (decodeVideo : String → Option (List Frame))
    (decodeImage : String → Option Frame)
    (gauss : Nat × Nat → Frame → Frame)
    (op : EditOp) (frames : List Frame)
    (h : ∀ t p c, op ≠ EditOp.overlayText t p c) :
    (runOp decodeVideo decodeImage gauss op frames).2 = frames ∧
    ∀ t p c,
      (runOp decodeVideo decodeImage gauss (EditOp.overlayText t p c) frames).1 =
        (runOp decodeVideo decodeImage gauss (EditOp.overlayText t p c) frames).2 := by
  refine ⟨?_, fun t p c => rfl⟩
  cases op with
  | overlayText t p c => exact absurd rfl (h t p c)
  | _ => rfl

/-- Witness for C6's amended theorem at a concrete operation. -/
theorem edit_ops_pure_except_overlay_witness :
    (runOp (fun _ => none) (fun _ => none) (fun _ f => f) (EditOp.cutOp 3 1)
        [Frame.gray [[0]]]).2 = [Frame.gray [[0]]] ∧
    ∀ t p c,
      (runOp (fun _ => none) (fun _ => none) (fun _ f => f)
          (EditOp.overlayText t p c) [Frame.gray [[0]]]).1 =
        (runOp (fun _ => none) (fun _ => none) (fun _ f => f)
          (EditOp.overlayText t p c) [Frame.gray [[0]]]).2 :=
  edit_ops_pure_except_overlay (fun _ => none) (fun _ => none) (fun _ f => f)
    (EditOp.cutOp 3 1) [Frame.gray [[0]]]
    (fun _ _ _ h => EditOp.noConfusion h)

/-- C8: when a source cannot be opened, `append_video` and
`append_image` report the error and return the input sequence
unchanged; an empty initial sequence fed to `append_video` on such a
path through the pipeline stays empty, and a subsequent `cut` on the
empty sequence is a no-op. -/
theorem append_missing_source
    (decodeVideo : String → Option (List Frame))
    (decodeImage : String → Option Frame)
    (frames : List Frame) (p q : String) (start count : Int)
    (hv : decodeVideo ("input/" ++ p) = none)
    (hi : decodeImage ("input/" ++ q) = none) :
    append_video decodeVideo frames p = (frames, true) ∧
    append_image decodeImage frames q = (frames, true) ∧
    apply_pipeline ([] : List Frame)
      [fun s => (append_video decodeVideo s p).1, fun s => cut s start count] = [] := by
  refine ⟨?_, ?_, ?_⟩
  · simp [append_video, hv]
  · simp [append_image, hi]
  · simp [apply_pipeline, append_video, hv, cut, pySliceTo, pySliceFrom]

/-- Witness for C8 at a concrete input. -/
theorem append_missing_source_witness :
    append_video (fun _ => none) [] "maw.webm" = ([], true) ∧
    append_image (fun _ => none) [] "huh.png" = ([], true) ∧
    apply_pipeline ([] : List Frame)
      [fun s => (append_video (fun _ => none) s "maw.webm").1,
       fun s => cut s 300 50] = [] :=
  append_missing_source (fun _ => none) (fun _ => none) [] "maw.webm" "huh.png"
    300 50 rfl rfl

end VideoEdit
